import Mathlib

/-!
A shallow embedding of the two core components of the RemarkableFramebuffer
repository: the refresh dispatcher (`src/framebuffer/refresh.rs`) and the UI
element redraw coordinator (`src/ui_extensions/element.rs`), together with
theorems settling the specification's claims about them.

Machine integers (`u32`, `u16`, `usize`) are embedded as `Nat`, with an
explicit `% 2^32` (resp. `% 2^16`) wherever the Rust code performs 32-bit
(resp. 16-bit) arithmetic or casts whose wrapping behaviour can matter.
Device `ioctl` calls are embedded as an oracle `Nat → Option Nat` mapping the
waited-on marker to `some collision_flag` on success and `none` on failure
(`ioctl` returning a negative value), and the `Framebuffer` state records the
dispatched requests, the waits issued and the warnings logged, so that "no
device call is performed" is a statement about the state.
-/

def U32 : Nat := 2 ^ 32

def U16 : Nat := 2 ^ 16

/-- Modelled from the spec: `common::DISPLAYWIDTH` lives in `framebuffer/common.rs`,
which is not under `src/`; the spec fixes a 1404×1872 pixel device. -/
def DISPLAYWIDTH : Nat := 1404

/-- Modelled from the spec: `common::DISPLAYHEIGHT` lives in `framebuffer/common.rs`,
which is not under `src/`; the spec fixes a 1404×1872 pixel device. -/
def DISPLAYHEIGHT : Nat := 1872

/-- The minimum height/width enforced before each call to MXCFB_SEND_UPDATE
(`MIN_SEND_UPDATE_DIMENSION_PX` in `src/framebuffer/refresh.rs`). -/
def MIN_SEND_UPDATE_DIMENSION_PX : Nat := 32

/-- Modelled from the spec: the "test collision only" flag bit of the device
control surface (`common::EPDC_FLAG_TEST_COLLISION`, not under `src/`). -/
def EPDC_FLAG_TEST_COLLISION : Nat := 512

/-- Modelled from the spec: the enumerated full/partial update mode values of
the device control surface (`common::update_mode`, not under `src/`). -/
def UPDATE_MODE_FULL : Nat := 1

/-- Modelled from the spec: the partial update mode value. -/
def UPDATE_MODE_PARTIAL : Nat := 0

/-- The rectangle type `common::mxcfb_rect`: unsigned 32-bit top/left/width/height
in device pixel units. -/
structure mxcfb_rect where
  top : Nat
  left : Nat
  width : Nat
  height : Nat
deriving DecidableEq, Repr

/-- Modelled from the spec: the sentinel "invalid" rectangle value denoting
"nothing drawn yet" (`mxcfb_rect::invalid()`, defined in `common.rs` which is
not under `src/`); a distinguished all-ones `u32` value. -/
def mxcfb_rect.invalid : mxcfb_rect :=
  { top := U32 - 1, left := U32 - 1, width := U32 - 1, height := U32 - 1 }

/-- The three synchronization strengths of `partial_refresh`
(`PartialRefreshMode` in `src/framebuffer/refresh.rs`). -/
inductive PartialRefreshMode where
  | DryRun
  | Async
  | Wait
deriving DecidableEq, Repr

/-- The transient refresh request `mxcfb_update_data` built by `full_refresh`
and `partial_refresh` and dispatched through `MXCFB_SEND_UPDATE`. -/
structure mxcfb_update_data where
  update_mode : Nat
  update_marker : Nat
  waveform_mode : Nat
  temp : Int
  flags : Nat
  quant_bit : Int
  dither_mode : Int
  update_region : mxcfb_rect
deriving DecidableEq, Repr

/-- The dispatcher state: `core::Framebuffer`'s atomic 32-bit marker counter and
variable screen info, extended with an explicit record of the device calls made
(`dispatched` and `waited`, most recent first) and of the warnings logged, so
that effects are provable facts about the state. -/
structure Framebuffer where
  marker : Nat
  xres : Nat
  yres : Nat
  dispatched : List mxcfb_update_data
  waited : List Nat
  warnings : List String
deriving DecidableEq, Repr

/-- One `MXCFB_WAIT_FOR_UPDATE_COMPLETE` ioctl: `markerdata.collision_test` is
initialized to 0; on success (`dev marker = some flag`) the device writes the
collision flag; on failure (`ioctl` negative, `dev marker = none`) a warning is
logged and the initialized 0 is what remains in `collision_test`. -/
def waitIoctl (dev : Nat → Option Nat) (fb : Framebuffer) (marker : Nat)
    (warnMsg : String) : Framebuffer × Nat :=
  match dev marker with
  | some flag => ({ fb with waited := marker :: fb.waited }, flag)
  | none =>
      ({ fb with waited := marker :: fb.waited, warnings := warnMsg :: fb.warnings }, 0)

/-- `full_refresh` from `src/framebuffer/refresh.rs` (lines 30–79): builds a
full-mode request covering the whole screen, tags it with the current marker,
advances the 32-bit counter (wrapping addition), dispatches it, optionally
blocks on its completion, and always returns the marker used. -/
def full_refresh (fb : Framebuffer) (dev : Nat → Option Nat) (waveform_mode : Nat)
    (temperature : Int) (dither_mode : Int) (quant_bit : Int)
    (wait_completion : Bool) : Framebuffer × Nat :=
  let screen : mxcfb_rect := { top := 0, left := 0, height := fb.yres, width := fb.xres }
  let whole : mxcfb_update_data :=
    { update_mode := UPDATE_MODE_FULL
      update_marker := fb.marker % U32
      waveform_mode := waveform_mode
      temp := temperature
      flags := 0
      quant_bit := quant_bit
      dither_mode := dither_mode
      update_region := screen }
  let fb1 : Framebuffer :=
    { fb with marker := (whole.update_marker + 1) % U32
              dispatched := whole :: fb.dispatched }
  if wait_completion then
    let w := waitIoctl dev fb1 whole.update_marker
      "WAIT_FOR_UPDATE_COMPLETE failed after a full_refresh(..)"
    (w.1, whole.update_marker)
  else
    (fb1, whole.update_marker)

/-- The region clamping of `partial_refresh` (lines 99–112): raise width and
height to the enforced minimum, then shave each back if the resulting opposite
edge overflows the device edge. The additions `left + width` and `top + height`
are 32-bit and wrap (hence the `% U32`), exactly as the `u32` additions in the
source do. -/
def clampRegion (region : mxcfb_rect) : mxcfb_rect :=
  let width0 := max region.width MIN_SEND_UPDATE_DIMENSION_PX
  let height0 := max region.height MIN_SEND_UPDATE_DIMENSION_PX
  let max_x := (region.left + width0) % U32
  let width1 := if max_x > DISPLAYWIDTH then width0 - (max_x - DISPLAYWIDTH) else width0
  let max_y := (region.top + height0) % U32
  let height1 := if max_y > DISPLAYHEIGHT then height0 - (max_y - DISPLAYHEIGHT) else height0
  { region with width := width1, height := height1 }

/-- `partial_refresh` from `src/framebuffer/refresh.rs` (lines 81–155): drop the
region (returning 0, touching nothing) if its origin is out of device bounds;
otherwise clamp it, build a partial-mode request with the current marker (with
the test-collision flag exactly when the mode is `DryRun`), advance the 32-bit
counter, dispatch, and either return the marker at once (`Async`) or block on
completion and return the collision flag (`Wait`/`DryRun`). -/
def partial_refresh (fb : Framebuffer) (dev : Nat → Option Nat)
    (region : mxcfb_rect) (mode : PartialRefreshMode) (waveform_mode : Nat)
    (temperature : Int) (dither_mode : Int) (quant_bit : Int) : Framebuffer × Nat :=
  if region.left ≥ DISPLAYWIDTH ∨ region.top ≥ DISPLAYHEIGHT then
    (fb, 0)
  else
    let whole : mxcfb_update_data :=
      { update_mode := UPDATE_MODE_PARTIAL
        update_marker := fb.marker % U32
        waveform_mode := waveform_mode
        temp := temperature
        flags := match mode with
          | PartialRefreshMode.DryRun => EPDC_FLAG_TEST_COLLISION
          | _ => 0
        quant_bit := quant_bit
        dither_mode := dither_mode
        update_region := clampRegion region }
    let fb1 : Framebuffer :=
      { fb with marker := (whole.update_marker + 1) % U32
                dispatched := whole :: fb.dispatched }
    match mode with
    | PartialRefreshMode.Wait | PartialRefreshMode.DryRun =>
        waitIoctl dev fb1 whole.update_marker
          "WAIT_FOR_UPDATE_COMPLETE failed after a partial_refresh(..)"
    | PartialRefreshMode.Async => (fb1, whole.update_marker)

/-- `wait_refresh_complete` from `src/framebuffer/refresh.rs` (lines 157–173):
block on the named marker and return the completion's collision flag; on ioctl
failure log a warning and return the initialized 0. -/
def wait_refresh_complete (fb : Framebuffer) (dev : Nat → Option Nat)
    (marker : Nat) : Framebuffer × Nat :=
  waitIoctl dev fb marker "WAIT_FOR_UPDATE_COMPLETE failed"

/-- A concrete dispatcher state used by witnesses: counter at 7, empty history. -/
def fbDemo : Framebuffer :=
  { marker := 7, xres := 1404, yres := 1872, dispatched := [], waited := [], warnings := [] }

/-- A concrete device oracle used by witnesses: every wait succeeds with no collision. -/
def devOk : Nat → Option Nat := fun _ => some 0

/-- The pixel colors of `common::color` that the coordinator uses; `fill_rect`
clears with `color::WHITE`. -/
inductive Color where
  | WHITE
  | BLACK
deriving DecidableEq, Repr

/-- Modelled from the spec: the draw-mode waveform id used for clearing
(`common::waveform_mode::WAVEFORM_MODE_DU`, not under `src/`). -/
def WAVEFORM_MODE_DU : Nat := 1

/-- Modelled from the spec: the draw temperature id
(`common::display_temp::TEMP_USE_REMARKABLE_DRAW`, not under `src/`). -/
def TEMP_USE_REMARKABLE_DRAW : Int := 24

/-- Modelled from the spec: the pass-through dithering id
(`common::dither_mode::EPDC_FLAG_USE_DITHERING_PASSTHROUGH`, not under `src/`). -/
def EPDC_FLAG_USE_DITHERING_PASSTHROUGH : Int := 0

/-- The refresh policy `UIConstraintRefresh` from `src/ui_extensions/element.rs`. -/
inductive UIConstraintRefresh where
  | NoRefresh
  | Refresh
  | RefreshAndWait
deriving DecidableEq, Repr

/-- The element content variants `UIElement` from `src/ui_extensions/element.rs`;
the image payload is opaque to this core and is omitted. -/
inductive UIElement where
  | Text (text : String) (scale : Nat) (foreground : Color)
  | Image
  | Unspecified
deriving DecidableEq, Repr

/-- The per-element state `UIElementWrapper` from `src/ui_extensions/element.rs`;
`onclick` is an opaque function-pointer identity (the `draw` under study never
reads it). -/
structure UIElementWrapper where
  y : Nat
  x : Nat
  refresh : UIConstraintRefresh
  last_drawn_rect : Option mxcfb_rect
  onclick : Option Nat
  inner : UIElement
deriving DecidableEq, Repr

/-- The `ActiveRegionHandler` passed to `draw`: a function-pointer identity and
the `Arc` identity of the element it references. -/
structure ActiveRegionHandler where
  handler : Nat
  element : Nat
deriving DecidableEq, Repr

/-- An entry of the external active-region table: the rectangle (16-bit fields,
as in the `u16` interface of the table), the handler and the referenced
element's identity. -/
structure ActiveRegionEntry where
  top : Nat
  left : Nat
  height : Nat
  width : Nat
  handler : Nat
  element : Nat
deriving DecidableEq, Repr

/-- Modelled from the spec: find-by-point on the active-region table
(`appctx::ApplicationContext::find_active_region`, not under `src/`): an entry
is found when the pointer event (y, x) lands inside its rectangle. -/
def find_active_region (tbl : List ActiveRegionEntry) (y x : Nat) :
    Option ActiveRegionEntry :=
  tbl.find? fun en =>
    decide (en.top ≤ y ∧ y < en.top + en.height ∧ en.left ≤ x ∧ x < en.left + en.width)

/-- Modelled from the spec: remove-by-point on the active-region table
(`appctx::ApplicationContext::remove_active_region_at_point`, not under `src/`):
removes the entries anchored at the given top-left. -/
def remove_active_region_at_point (tbl : List ActiveRegionEntry) (top left : Nat) :
    List ActiveRegionEntry :=
  tbl.filter fun en => !decide (en.top = top ∧ en.left = left)

/-- Modelled from the spec: create on the active-region table
(`appctx::ApplicationContext::create_active_region`, not under `src/`): adds an
entry spanning the given rectangle, bound to the handler and element. -/
def create_active_region (tbl : List ActiveRegionEntry)
    (top left height width handler element : Nat) : List ActiveRegionEntry :=
  { top := top, left := left, height := height, width := width,
    handler := handler, element := element } :: tbl

/-- The calls `draw` makes on its collaborators (the pixel drawer and the
dispatcher), recorded in order so that frame effects are provable facts. -/
inductive DrawEvent where
  | fill_rect (top left height width : Nat) (c : Color)
  | partial_refresh_call (region : mxcfb_rect) (mode : PartialRefreshMode)
      (waveform : Nat) (temp : Int) (dither : Int) (quant_bit : Int)
  | display_text (y x : Nat) (foreground : Color) (scale : Nat) (text : String)
      (refresh : UIConstraintRefresh)
  | display_image (y x : Nat) (refresh : UIConstraintRefresh)
deriving DecidableEq, Repr

/-- Whether a `DrawEvent` is a partial-refresh dispatch. -/
def DrawEvent.isRefresh : DrawEvent → Bool
  | DrawEvent.partial_refresh_call _ _ _ _ _ _ => true
  | _ => false

/-- The outcome of one `UIElementWrapper::draw` call: the mutated element, the
active-region table after reconciliation, and the collaborator calls made. -/
structure DrawResult where
  element : UIElementWrapper
  regions : List ActiveRegionEntry
  events : List DrawEvent
deriving DecidableEq, Repr

/-- Step 3 of `draw` (lines 133–154 of `src/ui_extensions/element.rs`): if the
newly drawn rectangle differs from the previous one and a handler was supplied,
remove any entry anchored at the old rectangle's top-left (skipped when there
was no previous rectangle), then create an entry spanning the new rectangle
only if no entry already exists at the element's (y, x). The table interface
takes `u16` values, so the `u32`/`usize` fields are truncated (`% U16`) exactly
as the `as u16` casts in the source do. -/
def updateActiveRegions (regions : List ActiveRegionEntry)
    (old_filled_rect rect : mxcfb_rect) (y x : Nat)
    (handler : Option ActiveRegionHandler) : List ActiveRegionEntry :=
  if old_filled_rect ≠ rect then
    match handler with
    | some h =>
        let regions1 :=
          if old_filled_rect ≠ mxcfb_rect.invalid then
            remove_active_region_at_point regions
              (old_filled_rect.top % U16) (old_filled_rect.left % U16)
          else regions
        if (find_active_region regions1 (y % U16) (x % U16)).isNone then
          create_active_region regions1 (rect.top % U16) (rect.left % U16)
            (rect.height % U16) (rect.width % U16) h.handler h.element
        else regions1
    | none => regions
  else regions

/-- `UIElementWrapper::draw` from `src/ui_extensions/element.rs` (lines 81–159).
The pixel-drawing collaborator (`display_text`/`display_image`, out of this
core) always returns the bounding rectangle it touched; that rectangle is the
explicit argument `drawnRect`. Step 1 clears the previously drawn rectangle and
refreshes it only when its top/left both differ from the element's current
position (`u32` comparison, hence `% U32` on the `usize` position); step 2
invokes the collaborator for the variant, returning early on `Unspecified`;
step 3 reconciles the active-region table; step 4 records the new rectangle. -/
def UIElementWrapper.draw (self : UIElementWrapper)
    (regions : List ActiveRegionEntry) (drawnRect : mxcfb_rect)
    (handler : Option ActiveRegionHandler) : DrawResult :=
  let x := self.x
  let y := self.y
  let refresh := self.refresh
  let step1 : mxcfb_rect × List DrawEvent :=
    match self.last_drawn_rect with
    | some rect =>
        (rect,
          DrawEvent.fill_rect rect.top rect.left rect.height rect.width Color.WHITE ::
            (if rect.top ≠ y % U32 ∧ rect.left ≠ x % U32 then
              [DrawEvent.partial_refresh_call rect PartialRefreshMode.Wait
                WAVEFORM_MODE_DU TEMP_USE_REMARKABLE_DRAW
                EPDC_FLAG_USE_DITHERING_PASSTHROUGH 0]
            else []))
    | none => (mxcfb_rect.invalid, [])
  let old_filled_rect := step1.1
  let events := step1.2
  let displayEvent : Option DrawEvent :=
    match self.inner with
    | UIElement.Text text scale foreground =>
        some (DrawEvent.display_text y x foreground scale text refresh)
    | UIElement.Image => some (DrawEvent.display_image y x refresh)
    | UIElement.Unspecified => none
  match displayEvent with
  | none => { element := self, regions := regions, events := events }
  | some ev =>
      let rect := drawnRect
      let regions1 := updateActiveRegions regions old_filled_rect rect y x handler
      { element := { self with last_drawn_rect := some rect },
        regions := regions1,
        events := events ++ [ev] }

/-- One scheduled call of `draw` in a trace: the owning application may have
repositioned the element first (`x`, `y`), the collaborator returns `drawnRect`,
and a handler may or may not be supplied. -/
structure DrawCall where
  x : Nat
  y : Nat
  drawnRect : mxcfb_rect
  handler : Option ActiveRegionHandler
deriving DecidableEq, Repr

/-- Run one `DrawCall` against an element and the active-region table. -/
def runDraw (st : UIElementWrapper × List ActiveRegionEntry) (c : DrawCall) :
    UIElementWrapper × List ActiveRegionEntry :=
  let e := { st.1 with x := c.x, y := c.y }
  let r := e.draw st.2 c.drawnRect c.handler
  (r.element, r.regions)

/-- Run a sequence of `DrawCall`s. -/
def runTrace (st : UIElementWrapper × List ActiveRegionEntry)
    (cs : List DrawCall) : UIElementWrapper × List ActiveRegionEntry :=
  cs.foldl runDraw st

/-- The entries of the table referencing the element with identity `eid`. -/
def ownEntries (regions : List ActiveRegionEntry) (eid : Nat) :
    List ActiveRegionEntry :=
  regions.filter fun en => en.element == eid

/-- Whether an entry is anchored at the truncated top-left of the element's
last drawn rectangle. -/
def anchoredAtLast (e : UIElementWrapper) (en : ActiveRegionEntry) : Bool :=
  match e.last_drawn_rect with
  | some r => en.top == r.top % U16 && en.left == r.left % U16
  | none => false

/-- The per-element table invariant: at most one entry references the element,
and any such entry is anchored at the element's last drawn rectangle. -/
def ElementRegionInv (eid : Nat) (e : UIElementWrapper)
    (regions : List ActiveRegionEntry) : Prop :=
  (ownEntries regions eid).length ≤ 1 ∧
    ∀ en ∈ ownEntries regions eid, anchoredAtLast e en = true

/-- A dispatching operation of the refresh dispatcher, for statements that
quantify over successive dispatches of either kind. -/
inductive DispatchOp where
  | fullOp (waveform_mode : Nat) (temperature : Int) (dither_mode : Int)
      (quant_bit : Int) (wait_completion : Bool)
  | partialOp (region : mxcfb_rect) (mode : PartialRefreshMode)
      (waveform_mode : Nat) (temperature : Int) (dither_mode : Int) (quant_bit : Int)
deriving DecidableEq, Repr

/-- Run one dispatcher operation. -/
def runOp (fb : Framebuffer) (dev : Nat → Option Nat) : DispatchOp → Framebuffer × Nat
  | DispatchOp.fullOp wf t dm q w => full_refresh fb dev wf t dm q w
  | DispatchOp.partialOp r m wf t dm q => partial_refresh fb dev r m wf t dm q

/-- Whether an operation actually dispatches a request: a full refresh always
does, a partial refresh does exactly when the region's origin is in bounds. -/
def DispatchOp.dispatches : DispatchOp → Prop
  | DispatchOp.fullOp _ _ _ _ _ => True
  | DispatchOp.partialOp r _ _ _ _ _ => r.left < DISPLAYWIDTH ∧ r.top < DISPLAYHEIGHT

/-- A concrete device oracle whose waits always fail (`ioctl` negative). -/
def devFail : Nat → Option Nat := fun _ => none

/-- A dispatcher state whose 32-bit marker counter is at its maximum, as reached
after 2^32 - 8 dispatches from `fbDemo` (see `fullRefreshN_reaches_wrap`). -/
def fbWrap : Framebuffer :=
  { marker := U32 - 1, xres := 1404, yres := 1872, dispatched := [],
    waited := [], warnings := [] }

/-- Iterated full refreshes, to exhibit the counter states a single-threaded
caller reaches. -/
def fullRefreshN (fb : Framebuffer) (dev : Nat → Option Nat) : Nat → Framebuffer
  | 0 => fb
  | n + 1 => (full_refresh (fullRefreshN fb dev n) dev 1 24 0 0 false).1

/-- A concrete handler bound to element identity 0. -/
def handler0 : ActiveRegionHandler := { handler := 5, element := 0 }

/-- A concrete text element with nothing drawn yet, positioned at (0, 0). -/
def elemDemo : UIElementWrapper :=
  { y := 0, x := 0, refresh := UIConstraintRefresh.NoRefresh,
    last_drawn_rect := none, onclick := none,
    inner := UIElement.Text "a" 1 Color.BLACK }

/-- A first collaborator-reported rectangle. -/
def rectA : mxcfb_rect := { top := 10, left := 10, width := 5, height := 5 }

/-- A second collaborator-reported rectangle, disjoint from `rectA`. -/
def rectB : mxcfb_rect := { top := 100, left := 100, width := 5, height := 5 }

/-- A three-call trace: draw with a handler, redraw elsewhere without one, then
draw back at the first rectangle with a handler again. -/
def traceTwoEntries : List DrawCall :=
  [ { x := 0, y := 0, drawnRect := rectA, handler := some handler0 },
    { x := 0, y := 0, drawnRect := rectB, handler := none },
    { x := 0, y := 0, drawnRect := rectA, handler := some handler0 } ]

/-- C4: for every region entirely outside device bounds (top ≥ device height or
left ≥ device width), `partial_refresh` returns 0 and performs no device call:
the dispatcher state, including its dispatch and wait history, is untouched. -/
theorem partial_refresh_out_of_bounds_noop (fb : Framebuffer)
    (dev : Nat → Option Nat) (region : mxcfb_rect) (mode : PartialRefreshMode)
    (wf : Nat) (t dm q : Int)
    (h : region.top ≥ DISPLAYHEIGHT ∨ region.left ≥ DISPLAYWIDTH) :
    partial_refresh fb dev region mode wf t dm q = (fb, 0) := by
  unfold partial_refresh
  rw [if_pos h.symm]

/-- Witness for C4 at the spec's device: a region with top 2000 ≥ 1872. -/
theorem partial_refresh_out_of_bounds_noop_witness :
    partial_refresh fbDemo devOk
      { top := 2000, left := 0, width := 5, height := 5 }
      PartialRefreshMode.Async 1 24 0 0 = (fbDemo, 0) :=
  partial_refresh_out_of_bounds_noop fbDemo devOk
    { top := 2000, left := 0, width := 5, height := 5 }
    PartialRefreshMode.Async 1 24 0 0 (Or.inl (by decide))

/-- C10: on the dropped, return-0 path of `partial_refresh` (region origin out
of device bounds) the marker counter is left unchanged: no marker is allocated
or advanced. -/
theorem partial_refresh_dropped_marker_unchanged (fb : Framebuffer)
    (dev : Nat → Option Nat) (region : mxcfb_rect) (mode : PartialRefreshMode)
    (wf : Nat) (t dm q : Int)
    (h : region.top ≥ DISPLAYHEIGHT ∨ region.left ≥ DISPLAYWIDTH) :
    (partial_refresh fb dev region mode wf t dm q).1.marker = fb.marker := by
  unfold partial_refresh
  rw [if_pos h.symm]

/-- Witness for C10: same out-of-bounds region, marker counter still 7. -/
theorem partial_refresh_dropped_marker_unchanged_witness :
    (partial_refresh fbDemo devOk
      { top := 2000, left := 0, width := 5, height := 5 }
      PartialRefreshMode.Wait 1 24 0 0).1.marker = fbDemo.marker :=
  partial_refresh_dropped_marker_unchanged fbDemo devOk
    { top := 2000, left := 0, width := 5, height := 5 }
    PartialRefreshMode.Wait 1 24 0 0 (Or.inl (by decide))

/-- C6: for every element whose variant is `Unspecified`, `draw` returns
without altering state: the element (in particular `last_drawn_rect`) is
unchanged and no active-region entry is created or removed. -/
theorem draw_unspecified_noop (e : UIElementWrapper)
    (regions : List ActiveRegionEntry) (drawnRect : mxcfb_rect)
    (handler : Option ActiveRegionHandler) (hu : e.inner = UIElement.Unspecified) :
    (e.draw regions drawnRect handler).element = e ∧
      (e.draw regions drawnRect handler).regions = regions := by
  cases hl : e.last_drawn_rect <;>
    simp [UIElementWrapper.draw, hu, hl]

/-- Witness for C6: an unspecified element that had previously drawn `rectA`. -/
theorem draw_unspecified_noop_witness :
    (UIElementWrapper.draw
        { elemDemo with inner := UIElement.Unspecified,
                        last_drawn_rect := some rectA }
        [] rectB (some handler0)).element =
      { elemDemo with inner := UIElement.Unspecified,
                      last_drawn_rect := some rectA } ∧
    (UIElementWrapper.draw
        { elemDemo with inner := UIElement.Unspecified,
                        last_drawn_rect := some rectA }
        [] rectB (some handler0)).regions = [] :=
  draw_unspecified_noop
    { elemDemo with inner := UIElement.Unspecified, last_drawn_rect := some rectA }
    [] rectB (some handler0) (by rfl)

/-- C9: `wait_refresh_complete` blocks on the named marker and returns the
collision flag from that completion (0 if none reported); if the underlying
wait call fails, a warning is logged and the neutral fallback 0 is returned
instead of an error. -/
theorem wait_refresh_complete_semantics (fb : Framebuffer)
    (dev : Nat → Option Nat) (marker : Nat) :
    (wait_refresh_complete fb dev marker).1.waited = marker :: fb.waited ∧
    (∀ c, dev marker = some c →
      (wait_refresh_complete fb dev marker).2 = c ∧
      (wait_refresh_complete fb dev marker).1.warnings = fb.warnings) ∧
    (dev marker = none →
      (wait_refresh_complete fb dev marker).2 = 0 ∧
      (wait_refresh_complete fb dev marker).1.warnings =
        "WAIT_FOR_UPDATE_COMPLETE failed" :: fb.warnings) := by
  cases hdev : dev marker <;>
    simp [wait_refresh_complete, waitIoctl, hdev]

/-- Witness for C9: a successful wait returns the device's flag 0 with nothing
logged, and a failed wait falls back to 0. -/
theorem wait_refresh_complete_semantics_witness :
    ((wait_refresh_complete fbDemo devOk 9).2 = 0 ∧
      (wait_refresh_complete fbDemo devOk 9).1.warnings = fbDemo.warnings) ∧
    (wait_refresh_complete fbDemo devFail 9).2 = 0 :=
  ⟨(wait_refresh_complete_semantics fbDemo devOk 9).2.1 0 (by rfl),
    ((wait_refresh_complete_semantics fbDemo devFail 9).2.2 (by rfl)).1⟩

/-- C8: calling `draw` twice in succession with no change in the element's
content or position and refresh policy `NoRefresh` — so the drawing
collaborator returns the same rectangle both times — leaves the active-region
table unchanged after the second call. -/
theorem draw_twice_regions_unchanged (e : UIElementWrapper)
    (regions : List ActiveRegionEntry) (drawnRect : mxcfb_rect)
    (h1 h2 : Option ActiveRegionHandler)
    (_hpol : e.refresh = UIConstraintRefresh.NoRefresh) :
    ((e.draw regions drawnRect h1).element.draw
        (e.draw regions drawnRect h1).regions drawnRect h2).regions =
      (e.draw regions drawnRect h1).regions := by
  cases hi : e.inner <;>
    cases hl : e.last_drawn_rect <;>
      simp [UIElementWrapper.draw, updateActiveRegions, hi, hl]

/-- Witness for C8: a fresh text element drawn twice at the same place. -/
theorem draw_twice_regions_unchanged_witness :
    ((elemDemo.draw [] rectA (some handler0)).element.draw
        (elemDemo.draw [] rectA (some handler0)).regions rectA (some handler0)).regions =
      (elemDemo.draw [] rectA (some handler0)).regions :=
  draw_twice_regions_unchanged elemDemo [] rectA (some handler0) (some handler0) (by rfl)

/-- C3: for an in-bounds region, `partial_refresh` dispatches a request whose
test-collision flag is set exactly when the mode is `DryRun`; in `Async` mode
it returns the dispatched marker immediately without waiting, while in `Wait`
or `DryRun` mode it blocks on the marker and returns the collision flag the
device reports (0 in the no-collision path), never the marker. -/
theorem partial_refresh_mode_semantics (fb : Framebuffer)
    (dev : Nat → Option Nat) (region : mxcfb_rect) (mode : PartialRefreshMode)
    (wf : Nat) (t dm q : Int)
    (h1 : region.left < DISPLAYWIDTH) (h2 : region.top < DISPLAYHEIGHT) :
    (∃ req rest,
      (partial_refresh fb dev region mode wf t dm q).1.dispatched = req :: rest ∧
      req.update_marker = fb.marker % U32 ∧
      req.flags =
        (if mode = PartialRefreshMode.DryRun then EPDC_FLAG_TEST_COLLISION else 0)) ∧
    (mode = PartialRefreshMode.Async →
      (partial_refresh fb dev region mode wf t dm q).2 = fb.marker % U32 ∧
      (partial_refresh fb dev region mode wf t dm q).1.waited = fb.waited) ∧
    ((mode = PartialRefreshMode.Wait ∨ mode = PartialRefreshMode.DryRun) →
      (partial_refresh fb dev region mode wf t dm q).2 = (dev (fb.marker % U32)).getD 0 ∧
      (partial_refresh fb dev region mode wf t dm q).1.waited =
        (fb.marker % U32) :: fb.waited) := by
  have hn : ¬(region.left ≥ DISPLAYWIDTH ∨ region.top ≥ DISPLAYHEIGHT) := by
    push_neg
    exact ⟨h1, h2⟩
  cases mode <;>
    cases hdev : dev (fb.marker % U32) <;>
      simp [partial_refresh, waitIoctl, hn, hdev]

/-- Witness for C3: at `fbDemo` (marker 7) with a no-collision device, `Async`
returns 7 and `Wait` returns 0. -/
theorem partial_refresh_mode_semantics_witness :
    ((partial_refresh fbDemo devOk rectA PartialRefreshMode.Async 1 24 0 0).2 =
        fbDemo.marker % U32 ∧
      (partial_refresh fbDemo devOk rectA PartialRefreshMode.Async 1 24 0 0).1.waited =
        fbDemo.waited) ∧
    ((partial_refresh fbDemo devOk rectA PartialRefreshMode.Wait 1 24 0 0).2 =
        (devOk (fbDemo.marker % U32)).getD 0 ∧
      (partial_refresh fbDemo devOk rectA PartialRefreshMode.Wait 1 24 0 0).1.waited =
        (fbDemo.marker % U32) :: fbDemo.waited) :=
  ⟨(partial_refresh_mode_semantics fbDemo devOk rectA PartialRefreshMode.Async 1 24 0 0
      (by decide) (by decide)).2.1 rfl,
    (partial_refresh_mode_semantics fbDemo devOk rectA PartialRefreshMode.Wait 1 24 0 0
      (by decide) (by decide)).2.2 (Or.inl rfl)⟩

lemma clampRegion_width_eq (region : mxcfb_rect)
    (hw : region.left + max region.width MIN_SEND_UPDATE_DIMENSION_PX < U32) :
    (clampRegion region).width =
      if DISPLAYWIDTH < region.left + max region.width MIN_SEND_UPDATE_DIMENSION_PX
      then DISPLAYWIDTH - region.left
      else max region.width MIN_SEND_UPDATE_DIMENSION_PX := by
  unfold clampRegion
  simp only [Nat.mod_eq_of_lt hw, gt_iff_lt]
  split_ifs with h
  · omega
  · rfl

lemma clampRegion_height_eq (region : mxcfb_rect)
    (hh : region.top + max region.height MIN_SEND_UPDATE_DIMENSION_PX < U32) :
    (clampRegion region).height =
      if DISPLAYHEIGHT < region.top + max region.height MIN_SEND_UPDATE_DIMENSION_PX
      then DISPLAYHEIGHT - region.top
      else max region.height MIN_SEND_UPDATE_DIMENSION_PX := by
  unfold clampRegion
  simp only [Nat.mod_eq_of_lt hh, gt_iff_lt]
  split_ifs with h
  · omega
  · rfl

/-- C2 (amended): for every in-bounds-origin region whose 32-bit additions
`left + max(width, 32)` and `top + max(height, 32)` do not wrap, the dispatched
region's width and height are each at least the 32-pixel minimum, unless
meeting the minimum would overflow the device edge, in which case the
dispatched edge is clamped to exactly reach the device boundary; in particular
region {top 1870, left 0, width 32, height 32} dispatches height 2, width 32. -/
theorem partial_refresh_min_dimension (fb : Framebuffer)
    (dev : Nat → Option Nat) (region : mxcfb_rect) (mode : PartialRefreshMode)
    (wf : Nat) (t dm q : Int)
    (h1 : region.left < DISPLAYWIDTH) (h2 : region.top < DISPLAYHEIGHT)
    (hw : region.left + max region.width MIN_SEND_UPDATE_DIMENSION_PX < U32)
    (hh : region.top + max region.height MIN_SEND_UPDATE_DIMENSION_PX < U32) :
    (∃ req rest,
      (partial_refresh fb dev region mode wf t dm q).1.dispatched = req :: rest ∧
      req.update_region = clampRegion region) ∧
    (region.left + MIN_SEND_UPDATE_DIMENSION_PX ≤ DISPLAYWIDTH →
      MIN_SEND_UPDATE_DIMENSION_PX ≤ (clampRegion region).width) ∧
    (DISPLAYWIDTH < region.left + MIN_SEND_UPDATE_DIMENSION_PX →
      region.left + (clampRegion region).width = DISPLAYWIDTH) ∧
    (region.top + MIN_SEND_UPDATE_DIMENSION_PX ≤ DISPLAYHEIGHT →
      MIN_SEND_UPDATE_DIMENSION_PX ≤ (clampRegion region).height) ∧
    (DISPLAYHEIGHT < region.top + MIN_SEND_UPDATE_DIMENSION_PX →
      region.top + (clampRegion region).height = DISPLAYHEIGHT) ∧
    clampRegion { top := 1870, left := 0, width := 32, height := 32 } =
      { top := 1870, left := 0, width := 32, height := 2 } := by
  have hn : ¬(region.left ≥ DISPLAYWIDTH ∨ region.top ≥ DISPLAYHEIGHT) := by
    push_neg
    exact ⟨h1, h2⟩
  have hmw : MIN_SEND_UPDATE_DIMENSION_PX ≤ max region.width MIN_SEND_UPDATE_DIMENSION_PX :=
    le_max_right _ _
  have hmh : MIN_SEND_UPDATE_DIMENSION_PX ≤ max region.height MIN_SEND_UPDATE_DIMENSION_PX :=
    le_max_right _ _
  refine ⟨?_, ?_, ?_, ?_, ?_, by decide⟩
  · cases mode <;>
      cases hdev : dev (fb.marker % U32) <;>
        simp [partial_refresh, waitIoctl, hn, hdev]
  · intro hfit
    rw [clampRegion_width_eq region hw]
    split_ifs with h
    · omega
    · exact hmw
  · intro hover
    rw [clampRegion_width_eq region hw]
    rw [if_pos (by omega)]
    omega
  · intro hfit
    rw [clampRegion_height_eq region hh]
    split_ifs with h
    · omega
    · exact hmh
  · intro hover
    rw [clampRegion_height_eq region hh]
    rw [if_pos (by omega)]
    omega

/-- Witness for C2 (amended) at the spec's scenario region {1870, 0, 32, 32}:
the minimum fits horizontally so width ≥ 32, while meeting the minimum
vertically overflows the 1872-pixel edge so top + height = 1872. -/
theorem partial_refresh_min_dimension_witness :
    MIN_SEND_UPDATE_DIMENSION_PX ≤
      (clampRegion { top := 1870, left := 0, width := 32, height := 32 }).width ∧
    (1870 : Nat) +
      (clampRegion { top := 1870, left := 0, width := 32, height := 32 }).height =
        DISPLAYHEIGHT :=
  ⟨(partial_refresh_min_dimension fbDemo devOk
        { top := 1870, left := 0, width := 32, height := 32 }
        PartialRefreshMode.Async 1 24 0 0
        (by decide) (by decide) (by decide) (by decide)).2.1 (by decide),
    (partial_refresh_min_dimension fbDemo devOk
        { top := 1870, left := 0, width := 32, height := 32 }
        PartialRefreshMode.Async 1 24 0 0
        (by decide) (by decide) (by decide) (by decide)).2.2.2.2.1 (by decide)⟩

/-- Counterexample for C2 as stated: the region {top 0, left 1400, width
2^32 - 1, height 32} has its origin within device bounds and, since
1404 < 1400 + 32, meeting the 32-pixel minimum would overflow the device edge,
so the claim requires the dispatched width to reach exactly the boundary
(width 4); but the 32-bit addition `left + width` wraps to 1399, the overflow
branch is skipped, and the dispatched width is 2^32 - 1. -/
theorem partial_refresh_min_dimension_counterexample :
    (U32 - 1 : Nat) ≥ MIN_SEND_UPDATE_DIMENSION_PX ∧
    (1400 : Nat) < DISPLAYWIDTH ∧ (0 : Nat) < DISPLAYHEIGHT ∧
    DISPLAYWIDTH < 1400 + MIN_SEND_UPDATE_DIMENSION_PX ∧
    ∃ req rest,
      (partial_refresh fbDemo devOk
          { top := 0, left := 1400, width := U32 - 1, height := 32 }
          PartialRefreshMode.Async 1 24 0 0).1.dispatched = req :: rest ∧
      req.update_region.width = U32 - 1 ∧
      1400 + req.update_region.width ≠ DISPLAYWIDTH := by
  refine ⟨by decide, by decide, by decide, by decide, ?_⟩
  refine ⟨_, _, rfl, ?_, ?_⟩ <;> decide

lemma runOp_dispatch (fb : Framebuffer) (dev : Nat → Option Nat)
    (op : DispatchOp) (h : op.dispatches) :
    ∃ req, (runOp fb dev op).1.dispatched = req :: fb.dispatched ∧
      req.update_marker = fb.marker % U32 ∧
      (runOp fb dev op).1.marker = (fb.marker % U32 + 1) % U32 := by
  cases op with
  | fullOp wf t dm q w =>
      cases w <;>
        cases hdev : dev (fb.marker % U32) <;>
          simp [runOp, full_refresh, waitIoctl, hdev]
  | partialOp r m wf t dm q =>
      obtain ⟨hl, ht⟩ := h
      have hn : ¬(r.left ≥ DISPLAYWIDTH ∨ r.top ≥ DISPLAYHEIGHT) := by
        push_neg
        exact ⟨hl, ht⟩
      cases m <;>
        cases hdev : dev (fb.marker % U32) <;>
          simp [runOp, partial_refresh, waitIoctl, hn, hdev]

/-- C5 (amended): across two successive dispatches from a single-threaded
caller, the second request's 32-bit marker is `(first + 1) % 2^32`; whenever
the counter has not yet reached its 32-bit maximum, the second marker is
strictly greater than the first (so no marker recurs before the counter
wraps). -/
theorem dispatch_markers_monotonic (fb : Framebuffer) (dev : Nat → Option Nat)
    (op1 op2 : DispatchOp) (h1 : op1.dispatches) (h2 : op2.dispatches) :
    ∃ req1 req2,
      (runOp fb dev op1).1.dispatched = req1 :: fb.dispatched ∧
      (runOp (runOp fb dev op1).1 dev op2).1.dispatched =
        req2 :: (runOp fb dev op1).1.dispatched ∧
      req2.update_marker = (req1.update_marker + 1) % U32 ∧
      (req1.update_marker + 1 < U32 → req1.update_marker < req2.update_marker) := by
  obtain ⟨req1, hd1, hm1, hk1⟩ := runOp_dispatch fb dev op1 h1
  obtain ⟨req2, hd2, hm2, hk2⟩ := runOp_dispatch (runOp fb dev op1).1 dev op2 h2
  refine ⟨req1, req2, hd1, hd2, ?_, ?_⟩
  · rw [hm2, hk1, hm1]
    simp [U32]
  · intro hlt
    rw [hm2, hk1, hm1]
    rw [hm1] at hlt
    simp only [U32] at *
    omega

/-- Witness for C5 (amended): a full refresh followed by an in-bounds partial
refresh from `fbDemo` (counter 7). -/
theorem dispatch_markers_monotonic_witness :
    ∃ req1 req2,
      (runOp fbDemo devOk (DispatchOp.fullOp 1 24 0 0 false)).1.dispatched =
        req1 :: fbDemo.dispatched ∧
      (runOp (runOp fbDemo devOk (DispatchOp.fullOp 1 24 0 0 false)).1 devOk
          (DispatchOp.partialOp rectA PartialRefreshMode.Async 1 24 0 0)).1.dispatched =
        req2 :: (runOp fbDemo devOk (DispatchOp.fullOp 1 24 0 0 false)).1.dispatched ∧
      req2.update_marker = (req1.update_marker + 1) % U32 ∧
      (req1.update_marker + 1 < U32 → req1.update_marker < req2.update_marker) :=
  dispatch_markers_monotonic fbDemo devOk (DispatchOp.fullOp 1 24 0 0 false)
    (DispatchOp.partialOp rectA PartialRefreshMode.Async 1 24 0 0)
    trivial (by constructor <;> decide)

/-- Counterexample for C5 as stated: from the reachable state `fbWrap` whose
32-bit counter is at its maximum, a dispatch uses and returns marker
2^32 - 1 and the next dispatch uses and returns marker 0, which is not
strictly greater — the wrapped counter reuses earlier marker values. -/
theorem dispatch_markers_wrap_counterexample :
    (full_refresh fbWrap devOk 1 24 0 0 false).2 = U32 - 1 ∧
    (full_refresh (full_refresh fbWrap devOk 1 24 0 0 false).1 devOk 1 24 0 0 false).2 = 0 ∧
    ¬(full_refresh fbWrap devOk 1 24 0 0 false).2 <
        (full_refresh (full_refresh fbWrap devOk 1 24 0 0 false).1 devOk 1 24 0 0 false).2 := by
  refine ⟨by decide, by decide, by decide⟩

lemma fullRefreshN_marker (n : Nat) :
    (fullRefreshN fbDemo devOk n).marker = (7 + n) % U32 := by
  induction n with
  | zero => decide
  | succ n ih =>
      show (full_refresh (fullRefreshN fbDemo devOk n) devOk 1 24 0 0 false).1.marker = _
      simp [full_refresh, ih, U32]
      omega

/-- The wrapped counter state of `fbWrap` is reachable by a single-threaded
caller: after `2^32 - 8` full refreshes from `fbDemo` the counter sits at
`2^32 - 1`. -/
lemma fullRefreshN_reaches_wrap :
    (fullRefreshN fbDemo devOk (U32 - 8)).marker = fbWrap.marker := by
  rw [fullRefreshN_marker]
  decide

/-- C1: when the element is currently `Drawn(old)`, `draw` first fills the old
rectangle with the background color, then issues a blocking partial refresh of
the old rectangle (Wait mode, draw-mode waveform, pass-through dithering)
exactly when the old rectangle's top and left both differ from the element's
current (x, y) position — i.e. the refresh is skipped whenever the two share
either axis coordinate — and no other refresh of the cleared area occurs. -/
theorem draw_clears_then_refreshes_old (e : UIElementWrapper)
    (regions : List ActiveRegionEntry) (drawnRect : mxcfb_rect)
    (handler : Option ActiveRegionHandler) (old : mxcfb_rect)
    (hold : e.last_drawn_rect = some old) :
    ∃ rest,
      (e.draw regions drawnRect handler).events =
        DrawEvent.fill_rect old.top old.left old.height old.width Color.WHITE ::
          ((if old.top ≠ e.y % U32 ∧ old.left ≠ e.x % U32 then
              [DrawEvent.partial_refresh_call old PartialRefreshMode.Wait
                WAVEFORM_MODE_DU TEMP_USE_REMARKABLE_DRAW
                EPDC_FLAG_USE_DITHERING_PASSTHROUGH 0]
            else []) ++ rest) ∧
      ∀ ev ∈ rest, ev.isRefresh = false := by
  cases hi : e.inner with
  | Text text scale foreground =>
      refine ⟨[DrawEvent.display_text e.y e.x foreground scale text e.refresh], ?_, ?_⟩
      · simp [UIElementWrapper.draw, hold, hi]
      · simp [DrawEvent.isRefresh]
  | Image =>
      refine ⟨[DrawEvent.display_image e.y e.x e.refresh], ?_, ?_⟩
      · simp [UIElementWrapper.draw, hold, hi]
      · simp [DrawEvent.isRefresh]
  | Unspecified =>
      refine ⟨[], ?_, ?_⟩
      · simp [UIElementWrapper.draw, hold, hi]
      · simp

/-- Witness for C1: redrawing at (0, 0) an element whose old rectangle `rectA`
differs from the position on both axes, so the clear is followed by the
blocking refresh of `rectA`. -/
theorem draw_clears_then_refreshes_old_witness :
    ∃ rest,
      (UIElementWrapper.draw { elemDemo with last_drawn_rect := some rectA }
          [] rectB (some handler0)).events =
        DrawEvent.fill_rect rectA.top rectA.left rectA.height rectA.width Color.WHITE ::
          ((if rectA.top ≠ { elemDemo with last_drawn_rect := some rectA }.y % U32 ∧
                rectA.left ≠ { elemDemo with last_drawn_rect := some rectA }.x % U32 then
              [DrawEvent.partial_refresh_call rectA PartialRefreshMode.Wait
                WAVEFORM_MODE_DU TEMP_USE_REMARKABLE_DRAW
                EPDC_FLAG_USE_DITHERING_PASSTHROUGH 0]
            else []) ++ rest) ∧
      ∀ ev ∈ rest, ev.isRefresh = false :=
  draw_clears_then_refreshes_old { elemDemo with last_drawn_rect := some rectA }
    [] rectB (some handler0) rectA rfl

lemma draw_element_eq (e : UIElementWrapper) (regions : List ActiveRegionEntry)
    (r : mxcfb_rect) (h : Option ActiveRegionHandler) :
    (e.draw regions r h).element =
      if e.inner = UIElement.Unspecified then e
      else { e with last_drawn_rect := some r } := by
  cases hi : e.inner <;> cases hl : e.last_drawn_rect <;>
    simp [UIElementWrapper.draw, hi, hl]

lemma draw_regions_eq (e : UIElementWrapper) (regions : List ActiveRegionEntry)
    (r : mxcfb_rect) (h : Option ActiveRegionHandler) :
    (e.draw regions r h).regions =
      if e.inner = UIElement.Unspecified then regions
      else
        updateActiveRegions regions (e.last_drawn_rect.getD mxcfb_rect.invalid)
          r e.y e.x h := by
  cases hi : e.inner <;> cases hl : e.last_drawn_rect <;>
    simp [UIElementWrapper.draw, hi, hl]

lemma ownEntries_remove (eid : Nat) (l : List ActiveRegionEntry) (top left : Nat)
    (h : ∀ en ∈ ownEntries l eid, en.top = top ∧ en.left = left) :
    ownEntries (remove_active_region_at_point l top left) eid = [] := by
  rw [List.eq_nil_iff_forall_not_mem]
  intro en hen
  unfold ownEntries remove_active_region_at_point at hen
  rw [List.mem_filter] at hen
  obtain ⟨hen1, hown⟩ := hen
  rw [List.mem_filter] at hen1
  obtain ⟨henl, hkeep⟩ := hen1
  have hanch := h en (by
    unfold ownEntries
    exact List.mem_filter.mpr ⟨henl, hown⟩)
  simp at hkeep
  rcases hkeep with hk | hk
  · exact hk hanch.1
  · exact hk hanch.2

lemma ownEntries_filter_nil (eid : Nat) (l : List ActiveRegionEntry)
    (p : ActiveRegionEntry → Bool) (h : ownEntries l eid = []) :
    ownEntries (l.filter p) eid = [] := by
  rw [List.eq_nil_iff_forall_not_mem] at h ⊢
  intro en hen
  apply h en
  unfold ownEntries at hen ⊢
  rw [List.mem_filter] at hen ⊢
  exact ⟨(List.mem_filter.mp hen.1).1, hen.2⟩

lemma ownEntries_update_ne (eid : Nat) (regions : List ActiveRegionEntry)
    (old rect : mxcfb_rect) (y x : Nat) (hh : ActiveRegionHandler)
    (hne : old ≠ rect)
    (hA : (old ≠ mxcfb_rect.invalid ∧
            ∀ en ∈ ownEntries regions eid,
              en.top = old.top % U16 ∧ en.left = old.left % U16) ∨
          ownEntries regions eid = []) :
    ownEntries (updateActiveRegions regions old rect y x (some hh)) eid = [] ∨
    ownEntries (updateActiveRegions regions old rect y x (some hh)) eid =
      [{ top := rect.top % U16, left := rect.left % U16,
         height := rect.height % U16, width := rect.width % U16,
         handler := hh.handler, element := hh.element }] := by
  unfold updateActiveRegions
  rw [if_pos hne]
  dsimp only
  have h1 :
      ownEntries
        (if old ≠ mxcfb_rect.invalid then
          remove_active_region_at_point regions (old.top % U16) (old.left % U16)
        else regions) eid = [] := by
    by_cases hoi : old ≠ mxcfb_rect.invalid
    · rw [if_pos hoi]
      rcases hA with ⟨_, hanch⟩ | hemp
      · exact ownEntries_remove eid regions (old.top % U16) (old.left % U16) hanch
      · unfold remove_active_region_at_point
        exact ownEntries_filter_nil eid regions _ hemp
    · rw [if_neg hoi]
      rcases hA with ⟨hoi', _⟩ | hemp
      · exact absurd hoi' hoi
      · exact hemp
  by_cases hfind :
      (find_active_region
        (if old ≠ mxcfb_rect.invalid then
          remove_active_region_at_point regions (old.top % U16) (old.left % U16)
        else regions) (y % U16) (x % U16)).isNone
  · rw [if_pos hfind]
    unfold create_active_region
    unfold ownEntries at h1 ⊢
    rw [List.filter_cons]
    dsimp only
    by_cases hown : (hh.element == eid) = true
    · right
      rw [if_pos hown, h1]
    · left
      rw [if_neg hown]
      exact h1
  · rw [if_neg hfind]
    exact Or.inl h1

lemma anchoredAtLast_xy (e : UIElementWrapper) (cx cy : Nat) (en : ActiveRegionEntry) :
    anchoredAtLast { e with x := cx, y := cy } en = anchoredAtLast e en := by
  cases h : e.last_drawn_rect <;> simp [anchoredAtLast, h]

lemma ownEntries_nil_of_none (eid : Nat) (e : UIElementWrapper)
    (regions : List ActiveRegionEntry)
    (hanch : ∀ en ∈ ownEntries regions eid, anchoredAtLast e en = true)
    (hn : e.last_drawn_rect = none) :
    ownEntries regions eid = [] := by
  rw [List.eq_nil_iff_forall_not_mem]
  intro en hen
  have h := hanch en hen
  simp [anchoredAtLast, hn] at h

lemma runDraw_preserves (eid : Nat) (e : UIElementWrapper)
    (regions : List ActiveRegionEntry) (c : DrawCall)
    (hlen : (ownEntries regions eid).length ≤ 1)
    (hanch : ∀ en ∈ ownEntries regions eid, anchoredAtLast e en = true)
    (hlast : e.last_drawn_rect ≠ some mxcfb_rect.invalid)
    (hhandler : c.handler ≠ none)
    (hrect : c.drawnRect ≠ mxcfb_rect.invalid) :
    ElementRegionInv eid (runDraw (e, regions) c).1 (runDraw (e, regions) c).2 ∧
      (runDraw (e, regions) c).1.last_drawn_rect ≠ some mxcfb_rect.invalid := by
  obtain ⟨hh, hch⟩ : ∃ hh, c.handler = some hh := by
    cases hc : c.handler
    · exact absurd hc hhandler
    · exact ⟨_, rfl⟩
  have hxyinner : ({ e with x := c.x, y := c.y } : UIElementWrapper).inner = e.inner := rfl
  have hxylast : ({ e with x := c.x, y := c.y } : UIElementWrapper).last_drawn_rect
      = e.last_drawn_rect := rfl
  have hxyy : ({ e with x := c.x, y := c.y } : UIElementWrapper).y = c.y := rfl
  have hxyx : ({ e with x := c.x, y := c.y } : UIElementWrapper).x = c.x := rfl
  simp only [runDraw, draw_element_eq, draw_regions_eq, hxyinner, hxylast, hxyy, hxyx, hch]
  by_cases hu : e.inner = UIElement.Unspecified
  · rw [if_pos hu, if_pos hu]
    refine ⟨⟨hlen, ?_⟩, ?_⟩
    · intro en hen
      rw [anchoredAtLast_xy]
      exact hanch en hen
    · rw [hxylast]
      exact hlast
  · rw [if_neg hu, if_neg hu]
    refine ⟨?_, by simpa using hrect⟩
    by_cases heq : e.last_drawn_rect.getD mxcfb_rect.invalid = c.drawnRect
    · have hid : updateActiveRegions regions (e.last_drawn_rect.getD mxcfb_rect.invalid)
          c.drawnRect c.y c.x (some hh) = regions := by
        unfold updateActiveRegions
        rw [if_neg (by simpa using heq)]
      rw [hid]
      refine ⟨hlen, ?_⟩
      intro en hen
      cases hl : e.last_drawn_rect with
      | none =>
          exfalso
          apply hrect
          rw [hl] at heq
          simpa using heq.symm
      | some r =>
          have hr : r = c.drawnRect := by
            rw [hl] at heq
            simpa using heq
          have h := hanch en hen
          simp only [anchoredAtLast, hl] at h
          simp only [anchoredAtLast]
          rw [← hr]
          exact h
    · have hA : (e.last_drawn_rect.getD mxcfb_rect.invalid ≠ mxcfb_rect.invalid ∧
            ∀ en ∈ ownEntries regions eid,
              en.top = (e.last_drawn_rect.getD mxcfb_rect.invalid).top % U16 ∧
              en.left = (e.last_drawn_rect.getD mxcfb_rect.invalid).left % U16) ∨
          ownEntries regions eid = [] := by
        cases hl : e.last_drawn_rect with
        | none => exact Or.inr (ownEntries_nil_of_none eid e regions hanch hl)
        | some r =>
            left
            simp only [Option.getD_some]
            refine ⟨?_, ?_⟩
            · intro hc
              apply hlast
              rw [hl, hc]
            · intro en hen
              have h := hanch en hen
              simp only [anchoredAtLast, hl] at h
              simp at h
              exact h
      rcases ownEntries_update_ne eid regions (e.last_drawn_rect.getD mxcfb_rect.invalid)
          c.drawnRect c.y c.x hh heq hA with hnil | hone
      · refine ⟨by rw [hnil]; simp, ?_⟩
        intro en hen
        rw [hnil] at hen
        simp at hen
      · refine ⟨by rw [hone]; simp, ?_⟩
        intro en hen
        rw [hone] at hen
        simp at hen
        subst hen
        simp [anchoredAtLast]

lemma runTrace_preserves (eid : Nat) (cs : List DrawCall) :
    ∀ (e : UIElementWrapper) (regions : List ActiveRegionEntry),
      ElementRegionInv eid e regions →
      e.last_drawn_rect ≠ some mxcfb_rect.invalid →
      (∀ c ∈ cs, c.handler ≠ none ∧ c.drawnRect ≠ mxcfb_rect.invalid) →
      ElementRegionInv eid (runTrace (e, regions) cs).1 (runTrace (e, regions) cs).2 ∧
        (runTrace (e, regions) cs).1.last_drawn_rect ≠ some mxcfb_rect.invalid := by
  induction cs with
  | nil =>
      intro e regions hinv hlast _
      exact ⟨hinv, hlast⟩
  | cons c cs ih =>
      intro e regions hinv hlast hcs
      have hstep := runDraw_preserves eid e regions c hinv.1 hinv.2 hlast
        (hcs c (by simp)).1 (hcs c (by simp)).2
      have hfold : runTrace (e, regions) (c :: cs) = runTrace (runDraw (e, regions) c) cs := by
        simp [runTrace]
      rw [hfold]
      rcases hrd : runDraw (e, regions) c with ⟨e', regions'⟩
      rw [hrd] at hstep
      exact ih e' regions' hstep.1 hstep.2 fun d hd => hcs d (by simp [hd])

/-- C7 (amended): across every sequence of draw calls in which a handler is
supplied on every call and the drawing collaborator never returns the sentinel
"invalid" rectangle, the element keeps at most one active-region entry, and
that entry is anchored at its current (last drawn) rectangle: the entry at the
old rectangle's top-left is removed first and a new entry is created only if no
entry already exists at the element's (x, y). If some calls omit the handler
while the rectangle moves, a stale entry can survive and a second one be
created (see the counterexample). -/
theorem draw_trace_at_most_one_entry (eid : Nat) (e : UIElementWrapper)
    (regions : List ActiveRegionEntry) (cs : List DrawCall)
    (hinv : ElementRegionInv eid e regions)
    (hlast : e.last_drawn_rect ≠ some mxcfb_rect.invalid)
    (hcs : ∀ c ∈ cs, c.handler ≠ none ∧ c.drawnRect ≠ mxcfb_rect.invalid) :
    ElementRegionInv eid (runTrace (e, regions) cs).1 (runTrace (e, regions) cs).2 :=
  (runTrace_preserves eid cs e regions hinv hlast hcs).1

/-- Witness for C7 (amended): two handler-supplied draws at different
rectangles leave exactly the invariant: at most one entry, anchored at the
current rectangle. -/
theorem draw_trace_at_most_one_entry_witness :
    ElementRegionInv 0
      (runTrace (elemDemo, [])
        [ { x := 0, y := 0, drawnRect := rectA, handler := some handler0 },
          { x := 0, y := 0, drawnRect := rectB, handler := some handler0 } ]).1
      (runTrace (elemDemo, [])
        [ { x := 0, y := 0, drawnRect := rectA, handler := some handler0 },
          { x := 0, y := 0, drawnRect := rectB, handler := some handler0 } ]).2 :=
  draw_trace_at_most_one_entry 0 elemDemo []
    [ { x := 0, y := 0, drawnRect := rectA, handler := some handler0 },
      { x := 0, y := 0, drawnRect := rectB, handler := some handler0 } ]
    ⟨by decide, by decide⟩ (by decide)
    (by
      intro c hc
      simp only [List.mem_cons, List.not_mem_nil, or_false] at hc
      rcases hc with hc | hc <;> subst hc <;> exact ⟨by decide, by decide⟩)

/-- Counterexample for C7 as stated: over the trace `traceTwoEntries` — draw
with a handler, redraw elsewhere with no handler, then draw back at the first
rectangle with a handler — the element ends up with two active-region entries,
both spanning its current rectangle `rectA`: the middle call moved
`last_drawn_rect` without removing the old entry, so the final call's removal
targets the wrong anchor and its creation guard (no entry at the element's
(x, y) = (0, 0)) does not see the surviving entry at (10, 10). -/
theorem draw_trace_two_entries_counterexample :
    (ownEntries (runTrace (elemDemo, []) traceTwoEntries).2 0).length = 2 ∧
    (runTrace (elemDemo, []) traceTwoEntries).1.last_drawn_rect = some rectA ∧
    ∀ en ∈ ownEntries (runTrace (elemDemo, []) traceTwoEntries).2 0,
      en.top = rectA.top % U16 ∧ en.left = rectA.left % U16 ∧
        en.height = rectA.height % U16 ∧ en.width = rectA.width % U16 := by
  refine ⟨by decide, by decide, by decide⟩
